import Mathlib

/-!
Verification of the safety-monitoring and central-control layer of the
Hopkinson-streamlit repository (`src/utils/control_system.py`).

The Python code is shallowly embedded:
* Python `float` values are modelled as exact rationals `ℚ` (every literal
  used by the code, such as `1.2`, `1.25`, `1.3`, is an exact rational);
* `datetime` timestamps are modelled as rationals, passed explicitly as a
  `now` argument wherever the source calls `datetime.now()`;
* the mutable objects (`SafetyMonitor`, `CentralControlSystem`) are modelled
  by state passing: each method takes the object state and returns the
  updated state together with the method's return value;
* the sensor reading produced by `SensorSimulator.generate_data()` inside
  `perform_safety_check` is passed in explicitly as an argument;
* the formatted warning strings appended by `check_safety_status` are
  modelled by an inductive `Violation` tag per rule (the numeric
  interpolation of the source's f-strings is not modelled; which rule fired
  is).
-/

/-- `SafetyLevel` enum (`control_system.py`, lines 17-22). -/
inductive SafetyLevel where
  | NORMAL
  | WARNING
  | DANGER
  | CRITICAL
deriving DecidableEq

/-- `SafetyThresholds` dataclass with its default values (lines 25-34). -/
structure SafetyThresholds where
  voltage : ℚ := 1000
  current : ℚ := 50
  temperature : ℚ := 85
  capacitor_charge : ℚ := 0.9
  discharge_rate : ℚ := 5
  insulation_resistance : ℚ := 200
  ground_resistance : ℚ := 1
deriving DecidableEq

/-- A sensor reading: the `sensor_data` dict. A key that may be absent from
the dict (`'voltage' in sensor_data`, ...) is an `Option` field. -/
structure SensorData where
  voltage : Option ℚ := none
  current : Option ℚ := none
  temperature : Option ℚ := none
  capacitor_charge : Option ℚ := none
  discharge_rate : Option ℚ := none
  insulation_resistance : Option ℚ := none
  ground_resistance : Option ℚ := none
deriving DecidableEq

/-- One tag per warning string that `check_safety_status` can append to
`warnings_list` (lines 77, 80, 87, 90, 97, 104, 111, 118). -/
inductive Violation where
  | voltageHigh
  | voltageWarn
  | currentHigh
  | currentWarn
  | tempHigh
  | capacitorHigh
  | insulationLow
  | groundHigh
deriving DecidableEq

/-- The dict appended to `safety_history` (lines 127-132). -/
structure SafetyRecord where
  timestamp : ℚ
  level : SafetyLevel
  data : SensorData
  warnings : List Violation
deriving DecidableEq

/-- `SafetyMonitor` object state (lines 40-58). `warning_levels` is a fixed
mapping, modelled by the function `warning_levels` below; `last_check_time`
is never read by the code and is omitted. -/
structure SafetyMonitor where
  thresholds : SafetyThresholds := {}
  safety_history : List SafetyRecord := []
  max_history_size : Nat := 1000
deriving DecidableEq

/-- The `warning_levels` dict (lines 49-54). -/
def warning_levels : SafetyLevel → String
  | SafetyLevel.NORMAL => "🟢 正常"
  | SafetyLevel.WARNING => "🟡 警告"
  | SafetyLevel.DANGER => "🔴 危险"
  | SafetyLevel.CRITICAL => "⛔ 紧急"

/-- Message text of each warning (the f-string prefixes of lines 77-118;
the interpolated numeric values are not modelled). -/
def violation_text : Violation → String
  | Violation.voltageHigh => "电压过高"
  | Violation.voltageWarn => "电压警告"
  | Violation.currentHigh => "电流过大"
  | Violation.currentWarn => "电流警告"
  | Violation.tempHigh => "温度过高"
  | Violation.capacitorHigh => "电容充电过高"
  | Violation.insulationLow => "绝缘电阻过低"
  | Violation.groundHigh => "接地电阻过高"

/-- Separator used by `', '.join(...)` on line 124. -/
def desc_sep : String := ", "

/-- The rule-evaluation part of `check_safety_status` (lines 70-120): the
sequential updates of the Python locals `warnings_list` and `max_level`,
block by block.  Each `let` shadowing corresponds to one metric block of the
source; the pair is `(max_level, warnings_list)`. -/
def evaluate_rules (th : SafetyThresholds) (sensor_data : SensorData) :
    SafetyLevel × List Violation :=
  let st : SafetyLevel × List Violation := (SafetyLevel.NORMAL, [])
  -- 电压检测 (lines 74-81)
  let st := match sensor_data.voltage with
    | none => st
    | some voltage =>
      if voltage > th.voltage * 1.2 then
        ((if voltage > th.voltage * 1.3 then SafetyLevel.CRITICAL else SafetyLevel.DANGER),
          st.2 ++ [Violation.voltageHigh])
      else if voltage > th.voltage then
        ((if st.1 ≠ SafetyLevel.DANGER then SafetyLevel.WARNING else st.1),
          st.2 ++ [Violation.voltageWarn])
      else st
  -- 电流检测 (lines 84-91); line 91 compares `max_level.value != 'danger'`,
  -- which is equality of the enum value, i.e. `st.1 ≠ DANGER`
  let st := match sensor_data.current with
    | none => st
    | some current =>
      if current > th.current * 1.2 then
        ((if current > th.current * 1.3 then SafetyLevel.CRITICAL else SafetyLevel.DANGER),
          st.2 ++ [Violation.currentHigh])
      else if current > th.current then
        ((if st.1 ≠ SafetyLevel.DANGER then SafetyLevel.WARNING else st.1),
          st.2 ++ [Violation.currentWarn])
      else st
  -- 温度检测 (lines 94-98)
  let st := match sensor_data.temperature with
    | none => st
    | some temp =>
      if temp > th.temperature * 1.1 then
        ((if temp > th.temperature * 1.2 then SafetyLevel.CRITICAL else SafetyLevel.DANGER),
          st.2 ++ [Violation.tempHigh])
      else st
  -- 电容状态检测 (lines 101-105)
  let st := match sensor_data.capacitor_charge with
    | none => st
    | some charge =>
      if charge > th.capacitor_charge then
        ((if st.1 ≠ SafetyLevel.CRITICAL then SafetyLevel.DANGER else st.1),
          st.2 ++ [Violation.capacitorHigh])
      else st
  -- 绝缘电阻检测 (lines 108-112): note the unconditional `max_level = WARNING`
  let st := match sensor_data.insulation_resistance with
    | none => st
    | some insulation =>
      if insulation < th.insulation_resistance then
        (SafetyLevel.WARNING, st.2 ++ [Violation.insulationLow])
      else st
  -- 接地电阻检测 (lines 115-119): note the unconditional `max_level = WARNING`
  let st := match sensor_data.ground_resistance with
    | none => st
    | some ground =>
      if ground > th.ground_resistance then
        (SafetyLevel.WARNING, st.2 ++ [Violation.groundHigh])
      else st
  st

/-- `SafetyMonitor.check_safety_status` (lines 60-139).  Returns
`(max_level, status_desc, safety_record)` as the source does, together with
the updated monitor state (the source mutates `self.safety_history`).
`now` is the value of `datetime.now()` on line 128. -/
def check_safety_status (m : SafetyMonitor) (sensor_data : SensorData) (now : ℚ) :
    SafetyLevel × String × SafetyRecord × SafetyMonitor :=
  let max_level := (evaluate_rules m.thresholds sensor_data).1
  let warnings_list := (evaluate_rules m.thresholds sensor_data).2
  -- 生成状态描述 (lines 122-124)
  let status_desc :=
    if warnings_list.isEmpty then warning_levels max_level
    else warning_levels max_level ++ " - " ++
      String.intercalate desc_sep ((warnings_list.take 2).map violation_text)
  -- 记录安全历史 (lines 127-133)
  let safety_record : SafetyRecord :=
    { timestamp := now, level := max_level, data := sensor_data, warnings := warnings_list }
  let history := m.safety_history ++ [safety_record]
  -- 保持历史记录在合理范围内 (lines 136-137): `history[-max_history_size:]`
  let history :=
    if history.length > m.max_history_size then
      history.drop (history.length - m.max_history_size)
    else history
  (max_level, status_desc, safety_record, { m with safety_history := history })

/-- Bit length of a natural number (fuel-bounded structural recursion;
`fuel = 128` is exact for every number below `2^128`, which covers every
value arising in this development). -/
def bits : Nat → Nat → Nat
  | 0, _ => 0
  | fuel + 1, n => if n = 0 then 0 else bits fuel (n / 2) + 1

/-- IEEE-754 binary64 rounding of a rational: round to nearest, ties to
even, onto a 53-bit significand.  Only the normal range is modelled —
overflow and subnormals do not arise for the magnitudes in this
development.  Implemented on the numerator and denominator with integer
arithmetic: `e` is the binade exponent of `|q|` (so `2^e ≤ |q| < 2^(e+1)`),
`N / D` is the exact significand `|q| * 2^(52-e)`, which is rounded to the
nearest integer with ties to even. -/
def fl64 (q : ℚ) : ℚ :=
  if q = 0 then 0
  else
    let na : ℤ := if q.num < 0 then -q.num else q.num
    let d : ℤ := (q.den : ℤ)
    let g : ℤ := (bits 128 na.toNat : ℤ) - (bits 128 q.den : ℤ)
    let e : ℤ :=
      if 0 ≤ g then (if d * (2 : ℤ) ^ g.toNat ≤ na then g else g - 1)
      else (if d ≤ na * (2 : ℤ) ^ (-g).toNat then g else g - 1)
    let k : ℤ := 52 - e
    let N : ℤ := if 0 ≤ k then na * (2 : ℤ) ^ k.toNat else na
    let D : ℤ := if 0 ≤ k then d else d * (2 : ℤ) ^ (-k).toNat
    let fl : ℤ := N / D
    let r : ℤ := N % D
    let rounded : ℤ :=
      if 2 * r < D then fl
      else if D < 2 * r then fl + 1
      else if fl % 2 = 0 then fl else fl + 1
    let rs : ℤ := if q.num < 0 then -rounded else rounded
    if 0 ≤ e - 52 then mkRat (rs * (2 : ℤ) ^ (e - 52).toNat) 1
    else mkRat rs ((2 : ℕ) ^ (52 - e).toNat)

/-- The Python expression `summary[level] / summary['total'] * 100` of
line 177, in IEEE-754 double arithmetic: the true division of the two ints
rounds to binary64, and so does the multiplication by 100. -/
def percent_of (count total : Nat) : ℚ :=
  fl64 (fl64 ((count : ℚ) / (total : ℚ)) * 100)

/-- The summary dict returned by `get_safety_summary` (lines 154-179). -/
structure Summary where
  total : Nat
  normal : Nat
  warning : Nat
  danger : Nat
  critical : Nat
  normal_percent : ℚ
  warning_percent : ℚ
  danger_percent : ℚ
  critical_percent : ℚ
deriving DecidableEq

/-- `SafetyMonitor.get_safety_summary` (lines 141-179).  `hours` is the time
window; `timedelta(hours=hours)` is modelled by measuring timestamps in
hours, so `cutoff_time = now - hours`.  The percentage fields follow the
source's IEEE-754 double arithmetic via `percent_of` (the counts and the
total are exact ints in Python too). -/
def get_safety_summary (m : SafetyMonitor) (hours : ℚ) (now : ℚ) : Summary :=
  let cutoff_time := now - hours
  let recent_history := m.safety_history.filter (fun r => r.timestamp > cutoff_time)
  if recent_history.isEmpty then
    { total := 0, normal := 0, warning := 0, danger := 0, critical := 0,
      normal_percent := 0, warning_percent := 0, danger_percent := 0, critical_percent := 0 }
  else
    let total := recent_history.length
    let normal := (recent_history.filter (fun r => r.level = SafetyLevel.NORMAL)).length
    let warning := (recent_history.filter (fun r => r.level = SafetyLevel.WARNING)).length
    let danger := (recent_history.filter (fun r => r.level = SafetyLevel.DANGER)).length
    let critical := (recent_history.filter (fun r => r.level = SafetyLevel.CRITICAL)).length
    { total := total, normal := normal, warning := warning, danger := danger,
      critical := critical,
      normal_percent := if total > 0 then percent_of normal total else 0,
      warning_percent := if total > 0 then percent_of warning total else 0,
      danger_percent := if total > 0 then percent_of danger total else 0,
      critical_percent := if total > 0 then percent_of critical total else 0 }

/-- `SafetyMonitor.get_recent_alerts` (lines 181-184).  Python's
`sorted(..., key=..., reverse=True)` is a stable descending sort, modelled by
`mergeSort` with the relation `b.timestamp ≤ a.timestamp`. -/
def get_recent_alerts (m : SafetyMonitor) (count : Nat) : List SafetyRecord :=
  let alerts := m.safety_history.filter (fun r => r.level ≠ SafetyLevel.NORMAL)
  (alerts.mergeSort (fun a b => b.timestamp ≤ a.timestamp)).take count

/-- `LSTMPredictor` object state (`ai_models.py`, lines 16-31), restricted to
the fields the control-system claims depend on.  The keras `model` object is
external library state and is not tracked. -/
structure LSTMPredictor where
  sequence_length : Nat := 50
  prediction_horizon : Nat := 10
  is_trained : Bool := false
deriving DecidableEq

/-- Number of `(X, y)` pairs produced by `LSTMPredictor.prepare_sequences`
(`ai_models.py`, lines 78-91): the length of
`range(len(data) - sequence_length - prediction_horizon + 1)`, which is empty
when the bound is non-positive.  The data itself is abstracted to its
length, which is all the fit-failure behaviour depends on. -/
def num_sequences (p : LSTMPredictor) (dataLen : Nat) : Nat :=
  ((dataLen : Int) - (p.sequence_length : Int) - (p.prediction_horizon : Int) + 1).toNat

/-- Error message for a fit on an empty training set. -/
def empty_fit_msg : String := "训练数据为空"

/-- Modelled from the spec: `keras.Model.fit` (external library code, called
by `LSTMPredictor.train` on `ai_models.py` line 123) raises when given an
empty training set; the spec states that `initialize` "Fails (reports, does
not crash the process) if historical data is malformed (e.g., empty)". -/
def model_fit (n : Nat) : Except String Unit :=
  if n = 0 then Except.error empty_fit_msg else Except.ok ()

/-- `LSTMPredictor.train` (`ai_models.py`, lines 93-139): prepares the
sequences, fits the model (which can raise), then sets `is_trained`.  The
returned loss-history dict is not modelled. -/
def LSTMPredictor.train (p : LSTMPredictor) (dataLen : Nat) :
    Except String LSTMPredictor :=
  match model_fit (num_sequences p dataLen) with
  | Except.error e => Except.error e
  | Except.ok _ => Except.ok { p with is_trained := true }

/-- `CentralControlSystem` object state (`control_system.py`, lines 230-251).
`waveform_gan`, `control_parameters` and the `real_time_data` queue play no
part in the claims and are omitted; `system_status` and `operation_mode` are
the Python status strings. -/
structure CentralControlSystem where
  lstm_predictor : LSTMPredictor := {}
  is_running : Bool := false
  safety_monitor : SafetyMonitor := {}
  safety_enabled : Bool := true
  auto_shutdown_enabled : Bool := true
  emergency_shutdown_count : Nat := 0
  max_emergency_shutdowns : Nat := 3
  last_safety_check : ℚ := 0
  system_status : String := "stopped"
deriving DecidableEq

/-- `CentralControlSystem.initialize_system` (lines 253-262): trains the LSTM
predictor on the historical data, then sets `system_status = "initialized"`.
`build_model` only configures the external keras model and is not tracked.
An exception from `train` propagates to the caller, so the status assignment
on line 262 is not reached. -/
def init_system (c : CentralControlSystem) (historical_data : List ℚ) :
    Except String CentralControlSystem :=
  match c.lstm_predictor.train historical_data.length with
  | Except.error e => Except.error e
  | Except.ok p =>
      Except.ok { c with lstm_predictor := p, system_status := "initialized" }

/-- The object state as the caller sees it after `initialize_system`: on an
exception the mutation of `system_status` did not happen, so the state is
the pre-call one (Python exception semantics rendered in state passing). -/
def init_result (c : CentralControlSystem) (historical_data : List ℚ) :
    CentralControlSystem :=
  match init_system c historical_data with
  | Except.ok c' => c'
  | Except.error _ => c

/-- `CentralControlSystem.emergency_shutdown` (lines 315-322). -/
def emergency_shutdown (c : CentralControlSystem) : CentralControlSystem :=
  let c := { c with is_running := false, system_status := "emergency_stopped",
                    emergency_shutdown_count := c.emergency_shutdown_count + 1 }
  if c.emergency_shutdown_count ≥ c.max_emergency_shutdowns then
    { c with safety_enabled := false }
  else c

/-- `CentralControlSystem.safe_shutdown` (lines 324-327). -/
def safe_shutdown (c : CentralControlSystem) : CentralControlSystem :=
  { c with is_running := false, system_status := "stopped" }

/-- The dict returned as third component of `perform_safety_check`
(lines 309-313). -/
structure CheckInfo where
  action : String
  data : SensorData
  level : SafetyLevel
deriving DecidableEq

/-- `CentralControlSystem.perform_safety_check` (lines 284-313).  The sensor
reading produced by `self.sensor_simulator.generate_data()` on line 290 is
passed in explicitly as `sensor_data`; `now` is `datetime.now()`. -/
def perform_safety_check (c : CentralControlSystem) (sensor_data : SensorData)
    (now : ℚ) : Bool × String × CheckInfo × CentralControlSystem :=
  let result := check_safety_status c.safety_monitor sensor_data now
  let level := result.1
  let description := result.2.1
  let monitor := result.2.2.2
  let c := { c with safety_monitor := monitor, last_safety_check := now }
  -- `(is_safe, action, new state)` after lines 295-307
  let step :=
    if level = SafetyLevel.CRITICAL ∧ c.auto_shutdown_enabled = true then
      (false, "紧急停机", emergency_shutdown c)
    else if level = SafetyLevel.DANGER ∧ c.auto_shutdown_enabled = true then
      (false, "安全停机", safe_shutdown c)
    else if level = SafetyLevel.WARNING then
      (true, "警告通知", c)
    else
      (true, "无", c)
  (step.1, description, { action := step.2.1, data := sensor_data, level := level },
    step.2.2)

/-- Folding `check_safety_status` over a list of `(reading, timestamp)`
inputs: the monitor state after a sequence of checks. -/
def runChecks (m : SafetyMonitor) (inputs : List (SensorData × ℚ)) : SafetyMonitor :=
  inputs.foldl (fun m p => (check_safety_status m p.1 p.2).2.2.2) m

/-- The record that `check_safety_status` builds for a reading (depends only
on the thresholds, the reading and the timestamp). -/
def recordOf (th : SafetyThresholds) (sensor_data : SensorData) (now : ℚ) :
    SafetyRecord :=
  { timestamp := now, level := (evaluate_rules th sensor_data).1,
    data := sensor_data, warnings := (evaluate_rules th sensor_data).2 }

/-- The non-NORMAL records of the ledger: the `alerts` list built on line 183
of `get_recent_alerts`. -/
def alertsOf (m : SafetyMonitor) : List SafetyRecord :=
  m.safety_history.filter (fun r => r.level ≠ SafetyLevel.NORMAL)

/-! ## Helper lemmas -/

theorem length_rtake {α : Type} (l : List α) (n : Nat) :
    (l.rtake n).length = min n l.length := by
  simp only [List.rtake, List.length_drop]
  omega

theorem rtake_eq_self {α : Type} (l : List α) (n : Nat) (h : l.length ≤ n) :
    l.rtake n = l := by
  simp [List.rtake, Nat.sub_eq_zero_of_le h]

/-- The Python trim `history[-n:] if len(history) > n else history` is
exactly `rtake n`. -/
theorem trim_eq_rtake {α : Type} (l : List α) (n : Nat) :
    (if l.length > n then l.drop (l.length - n) else l) = l.rtake n := by
  split
  · rfl
  · next h => simp [List.rtake, Nat.sub_eq_zero_of_le (Nat.le_of_not_lt h)]

theorem take_append_take {α : Type} (n : Nat) (ys r : List α) :
    (ys ++ r.take n).take n = (ys ++ r).take n := by
  rw [List.take_append_eq_append_take, List.take_append_eq_append_take,
    List.take_take, Nat.min_eq_left (Nat.sub_le _ _)]

theorem rtake_append_rtake {α : Type} (l l2 : List α) (n : Nat) :
    (l.rtake n ++ l2).rtake n = (l ++ l2).rtake n := by
  rw [List.rtake_eq_reverse_take_reverse, List.rtake_eq_reverse_take_reverse,
    List.rtake_eq_reverse_take_reverse]
  simp only [List.reverse_append, List.reverse_reverse]
  rw [take_append_take]

theorem check_history_eq (m : SafetyMonitor) (d : SensorData) (t : ℚ) :
    (check_safety_status m d t).2.2.2.safety_history
      = (m.safety_history ++ [recordOf m.thresholds d t]).rtake m.max_history_size := by
  simp only [check_safety_status, recordOf]
  exact trim_eq_rtake _ _

theorem check_record_eq (m : SafetyMonitor) (d : SensorData) (t : ℚ) :
    (check_safety_status m d t).2.2.1 = recordOf m.thresholds d t := rfl

theorem check_thresholds_eq (m : SafetyMonitor) (d : SensorData) (t : ℚ) :
    (check_safety_status m d t).2.2.2.thresholds = m.thresholds := rfl

theorem check_max_eq (m : SafetyMonitor) (d : SensorData) (t : ℚ) :
    (check_safety_status m d t).2.2.2.max_history_size = m.max_history_size := rfl

theorem runChecks_history (inputs : List (SensorData × ℚ)) :
    ∀ m : SafetyMonitor, m.safety_history.length ≤ m.max_history_size →
      (runChecks m inputs).safety_history
        = (m.safety_history
            ++ inputs.map (fun p => recordOf m.thresholds p.1 p.2)).rtake m.max_history_size := by
  induction inputs with
  | nil =>
      intro m h
      simp [runChecks, rtake_eq_self _ _ h]
  | cons p rest ih =>
      intro m h
      obtain ⟨d, t⟩ := p
      have hstep : runChecks m ((d, t) :: rest)
          = runChecks (check_safety_status m d t).2.2.2 rest := by
        simp [runChecks]
      have hlen : (check_safety_status m d t).2.2.2.safety_history.length
          ≤ (check_safety_status m d t).2.2.2.max_history_size := by
        rw [check_history_eq, check_max_eq, length_rtake]
        exact Nat.min_le_left _ _
      rw [hstep, ih _ hlen, check_history_eq, check_thresholds_eq, check_max_eq,
        rtake_append_rtake]
      simp

/-! ## Claims -/

/-- C1 (evaluation of the code at the failing input): with default thresholds,
the reading `{voltage: 1400}` alone classifies CRITICAL (1400 exceeds
1.3 × 1000), but the reading `{voltage: 1400, insulation_resistance: 100}` —
whose set of fired rules is a strict superset — classifies WARNING, because
the insulation rule on line 112 overwrites `max_level` unconditionally.  So
the overall level is not the maximum of the fired rule levels, and a later,
less severe rule does silently downgrade an established severity. -/
theorem check_safety_status_downgrade_failing_input :
    (check_safety_status {} { voltage := some 1400 } 0).1 = SafetyLevel.CRITICAL
    ∧ (check_safety_status {} { voltage := some 1400 } 0).2.2.1.warnings
        = [Violation.voltageHigh]
    ∧ (check_safety_status {} { voltage := some 1400, insulation_resistance := some 100 } 0).1
        = SafetyLevel.WARNING
    ∧ (check_safety_status {}
          { voltage := some 1400, insulation_resistance := some 100 } 0).2.2.1.warnings
        = [Violation.voltageHigh, Violation.insulationLow] := by
  with_unfolding_all decide

/-- C5 (counterexample): the classifier is not pure.  Starting from an empty
ledger, one call to `check_safety_status` leaves a ledger of length 1 and a
second call on the same reading leaves a ledger of length 2: the ledger
changes between the two calls, inside the classifier itself. -/
theorem check_safety_status_impure_cex :
    ({} : SafetyMonitor).safety_history.length = 0
    ∧ (check_safety_status {} { voltage := some 800 } 0).2.2.2.safety_history.length = 1
    ∧ (check_safety_status (check_safety_status {} { voltage := some 800 } 0).2.2.2
        { voltage := some 800 } 1).2.2.2.safety_history.length = 2 := by
  with_unfolding_all decide

/-- C5 (amended): `check_safety_status` itself appends the produced record to
the safety-history ledger (trimming to capacity): the new ledger is the last
`max_history_size` elements of `old ++ [record]`, and when the ledger is
below capacity it is exactly `old ++ [record]`. -/
theorem check_safety_status_appends_record :
    (∀ (m : SafetyMonitor) (d : SensorData) (t : ℚ),
        (check_safety_status m d t).2.2.2.safety_history
          = (m.safety_history ++ [(check_safety_status m d t).2.2.1]).rtake m.max_history_size)
    ∧ (∀ (m : SafetyMonitor) (d : SensorData) (t : ℚ),
        m.safety_history.length < m.max_history_size →
        (check_safety_status m d t).2.2.2.safety_history
          = m.safety_history ++ [(check_safety_status m d t).2.2.1]) := by
  constructor
  · intro m d t
    rw [check_history_eq, check_record_eq]
  · intro m d t h
    rw [check_history_eq, check_record_eq, rtake_eq_self]
    simp only [List.length_append, List.length_singleton]
    omega

/-- C5 witness: the amended statement applied at a concrete monitor. -/
theorem check_safety_status_appends_record_witness :
    ({} : SafetyMonitor).safety_history.length < ({} : SafetyMonitor).max_history_size
    ∧ (check_safety_status {} { voltage := some 800 } 0).2.2.2.safety_history
        = ({} : SafetyMonitor).safety_history
            ++ [(check_safety_status {} { voltage := some 800 } 0).2.2.1] :=
  ⟨by decide, check_safety_status_appends_record.2 {} { voltage := some 800 } 0 (by decide)⟩

/-- C2 (counterexample): with auto-shutdown disabled, a reading that
classifies CRITICAL still comes back with `is_safe = true` — the returned
flag does not reflect the computed level, because `is_safe` is only set to
`False` inside the two auto-shutdown branches. -/
theorem perform_safety_check_unsafe_flag_cex :
    (perform_safety_check { auto_shutdown_enabled := false }
        { voltage := some 1400 } 0).2.2.1.level = SafetyLevel.CRITICAL
    ∧ (perform_safety_check { auto_shutdown_enabled := false }
        { voltage := some 1400 } 0).1 = true := by
  with_unfolding_all decide

/-- C2 (amended): while auto-shutdown is disabled, `perform_safety_check`
always returns `is_safe = true` (whatever the classified level), and no
control-state transition occurs: `is_running`, `system_status`,
`safety_enabled` and the emergency counter are unchanged. -/
theorem perform_safety_check_auto_disabled (c : CentralControlSystem)
    (d : SensorData) (t : ℚ) (h : c.auto_shutdown_enabled = false) :
    (perform_safety_check c d t).1 = true
    ∧ (perform_safety_check c d t).2.2.2.is_running = c.is_running
    ∧ (perform_safety_check c d t).2.2.2.system_status = c.system_status
    ∧ (perform_safety_check c d t).2.2.2.safety_enabled = c.safety_enabled
    ∧ (perform_safety_check c d t).2.2.2.emergency_shutdown_count
        = c.emergency_shutdown_count := by
  simp only [perform_safety_check, h]
  split
  · next hcond => simp at hcond
  · split
    · next hcond => simp at hcond
    · split <;> simp

/-- C2 witness: the amended statement applied at a concrete control system. -/
theorem perform_safety_check_auto_disabled_witness :
    ({ auto_shutdown_enabled := false } : CentralControlSystem).auto_shutdown_enabled = false
    ∧ (perform_safety_check { auto_shutdown_enabled := false } { voltage := some 1400 } 0).1
        = true :=
  ⟨by decide, (perform_safety_check_auto_disabled { auto_shutdown_enabled := false }
      { voltage := some 1400 } 0 (by decide)).1⟩

/-- C3 (counterexample): after exactly 3 emergency shutdowns on a default
instance, `safety_enabled` is false, yet a subsequent `perform_safety_check`
whose reading classifies CRITICAL still triggers an automatic emergency
shutdown: the emergency counter goes to 4 and the status becomes
`emergency_stopped`.  Automatic shutdown is NOT disabled by the lockout,
because `perform_safety_check` consults only `auto_shutdown_enabled`. -/
theorem lockout_does_not_disable_auto_shutdown_cex :
    (emergency_shutdown (emergency_shutdown (emergency_shutdown {}))).safety_enabled = false
    ∧ (emergency_shutdown (emergency_shutdown
        (emergency_shutdown {}))).emergency_shutdown_count = 3
    ∧ (perform_safety_check (emergency_shutdown (emergency_shutdown (emergency_shutdown {})))
        { voltage := some 1400 } 0).2.2.1.level = SafetyLevel.CRITICAL
    ∧ (perform_safety_check (emergency_shutdown (emergency_shutdown (emergency_shutdown {})))
        { voltage := some 1400 } 0).2.2.2.emergency_shutdown_count = 4
    ∧ (perform_safety_check (emergency_shutdown (emergency_shutdown (emergency_shutdown {})))
        { voltage := some 1400 } 0).2.2.2.system_status = "emergency_stopped" := by
  with_unfolding_all decide

/-- C3 (amended): once the emergency counter reaches `max_emergency_shutdowns`,
`safety_enabled` becomes false and no operation of the control system ever
resets it to true (`perform_safety_check`, `emergency_shutdown`,
`safe_shutdown` and `initialize_system` all preserve a false flag); however,
the lockout does NOT disable automatic shutdown: whenever
`auto_shutdown_enabled` holds and a reading classifies CRITICAL,
`perform_safety_check` still performs an emergency shutdown (counter
incremented, status `emergency_stopped`). -/
theorem safety_enabled_lockout_amended :
    (∀ c : CentralControlSystem,
        c.max_emergency_shutdowns ≤ c.emergency_shutdown_count + 1 →
        (emergency_shutdown c).safety_enabled = false)
    ∧ (∀ (c : CentralControlSystem) (d : SensorData) (t : ℚ) (data : List ℚ),
        c.safety_enabled = false →
        (perform_safety_check c d t).2.2.2.safety_enabled = false
        ∧ (emergency_shutdown c).safety_enabled = false
        ∧ (safe_shutdown c).safety_enabled = false
        ∧ (init_result c data).safety_enabled = false)
    ∧ (∀ (c : CentralControlSystem) (d : SensorData) (t : ℚ),
        c.auto_shutdown_enabled = true →
        (check_safety_status c.safety_monitor d t).1 = SafetyLevel.CRITICAL →
        (perform_safety_check c d t).2.2.2.emergency_shutdown_count
            = c.emergency_shutdown_count + 1
        ∧ (perform_safety_check c d t).2.2.2.system_status = "emergency_stopped") := by
  refine ⟨?_, ?_, ?_⟩
  · intro c h
    simp only [emergency_shutdown]
    rw [if_pos]
    exact h
  · intro c d t data h
    refine ⟨?_, ?_, ?_, ?_⟩
    · simp only [perform_safety_check]
      split
      · simp [emergency_shutdown]
        split <;> simp [h]
      · split
        · simp [safe_shutdown, h]
        · split <;> simp [h]
    · simp only [emergency_shutdown]
      split <;> simp [h]
    · simp [safe_shutdown, h]
    · simp only [init_result, init_system]
      cases htr : c.lstm_predictor.train data.length with
      | error e => simp [htr, h]
      | ok p => simp [htr, h]
  · intro c d t hauto hcrit
    simp only [perform_safety_check]
    rw [if_pos]
    · constructor
      · simp only [emergency_shutdown]
        split <;> simp
      · simp only [emergency_shutdown]
        split <;> simp
    · exact ⟨hcrit, by simpa using hauto⟩

/-- C3 witness: the amended statement applied at a concrete instance. -/
theorem safety_enabled_lockout_amended_witness :
    ({ emergency_shutdown_count := 2 } : CentralControlSystem).max_emergency_shutdowns
        ≤ ({ emergency_shutdown_count := 2 } : CentralControlSystem).emergency_shutdown_count + 1
    ∧ (emergency_shutdown { emergency_shutdown_count := 2 }).safety_enabled = false :=
  ⟨by decide, safety_enabled_lockout_amended.1 { emergency_shutdown_count := 2 } (by decide)⟩

/-- C4: over any sequence of checks, the ledger length never exceeds the
configured maximum, and eviction is FIFO: starting from an empty ledger of
capacity `N`, after `N + 5` checks the ledger holds exactly the last `N`
produced records — the 5 oldest are gone and the rest keep their insertion
order. -/
theorem safety_history_bounded_fifo :
    (∀ (m : SafetyMonitor) (inputs : List (SensorData × ℚ)),
        m.safety_history.length ≤ m.max_history_size →
        (runChecks m inputs).safety_history.length ≤ m.max_history_size)
    ∧ (∀ (m : SafetyMonitor) (inputs : List (SensorData × ℚ)),
        m.safety_history = [] →
        inputs.length = m.max_history_size + 5 →
        (runChecks m inputs).safety_history
          = (inputs.map (fun p => recordOf m.thresholds p.1 p.2)).drop 5) := by
  constructor
  · intro m inputs h
    rw [runChecks_history inputs m h, length_rtake]
    exact Nat.min_le_left _ _
  · intro m inputs h0 h5
    have hlen : (inputs.map (fun p => recordOf m.thresholds p.1 p.2)).length
        = m.max_history_size + 5 := by
      rw [List.length_map, h5]
    rw [runChecks_history inputs m (by simp [h0]), h0, List.nil_append]
    simp [List.rtake, hlen]

/-- C4 witness: the theorem applied at a concrete monitor of capacity 2 with
7 checks. -/
theorem safety_history_bounded_fifo_witness :
    (({ max_history_size := 2 } : SafetyMonitor).safety_history.length
        ≤ ({ max_history_size := 2 } : SafetyMonitor).max_history_size
      ∧ (runChecks { max_history_size := 2 }
          [({}, 1), ({}, 2), ({}, 3), ({}, 4), ({}, 5), ({}, 6), ({}, 7)]).safety_history.length
        ≤ ({ max_history_size := 2 } : SafetyMonitor).max_history_size)
    ∧ (({ max_history_size := 2 } : SafetyMonitor).safety_history = []
      ∧ ([(({} : SensorData), (1 : ℚ)), ({}, 2), ({}, 3), ({}, 4), ({}, 5), ({}, 6), ({}, 7)].length
          = ({ max_history_size := 2 } : SafetyMonitor).max_history_size + 5)
      ∧ (runChecks { max_history_size := 2 }
          [({}, 1), ({}, 2), ({}, 3), ({}, 4), ({}, 5), ({}, 6), ({}, 7)]).safety_history
        = ([(({} : SensorData), (1 : ℚ)), ({}, 2), ({}, 3), ({}, 4), ({}, 5), ({}, 6), ({}, 7)].map
            (fun p => recordOf ({ max_history_size := 2 } : SafetyMonitor).thresholds p.1 p.2)).drop 5) :=
  ⟨⟨by decide,
    safety_history_bounded_fifo.1 { max_history_size := 2 }
      [({}, 1), ({}, 2), ({}, 3), ({}, 4), ({}, 5), ({}, 6), ({}, 7)] (by decide)⟩,
   ⟨rfl, by decide,
    safety_history_bounded_fifo.2 { max_history_size := 2 }
      [({}, 1), ({}, 2), ({}, 3), ({}, 4), ({}, 5), ({}, 6), ({}, 7)] rfl (by decide)⟩⟩

/-- C6: when no ledger record falls inside the time window, the summary is
all zeros — total 0, all per-level counts 0 and all percentages exactly 0 —
with no division performed (the function is total, so it cannot throw). -/
theorem get_safety_summary_empty_window (m : SafetyMonitor) (hours now : ℚ)
    (h : ∀ r ∈ m.safety_history, r.timestamp ≤ now - hours) :
    get_safety_summary m hours now
      = { total := 0, normal := 0, warning := 0, danger := 0, critical := 0,
          normal_percent := 0, warning_percent := 0, danger_percent := 0,
          critical_percent := 0 } := by
  have hfil : m.safety_history.filter (fun r => r.timestamp > now - hours) = [] := by
    rw [List.filter_eq_nil_iff]
    intro r hr
    simpa using not_lt.mpr (h r hr)
  simp [get_safety_summary, hfil]

/-- C6 witness: the theorem applied at a one-record ledger whose record lies
outside the window. -/
theorem get_safety_summary_empty_window_witness :
    (∀ r ∈ ({ safety_history :=
          [{ timestamp := 0, level := SafetyLevel.WARNING, data := {}, warnings := [] }] }
        : SafetyMonitor).safety_history, r.timestamp ≤ 10 - 1)
    ∧ get_safety_summary
        { safety_history :=
            [{ timestamp := 0, level := SafetyLevel.WARNING, data := {}, warnings := [] }] }
        1 10
      = { total := 0, normal := 0, warning := 0, danger := 0, critical := 0,
          normal_percent := 0, warning_percent := 0, danger_percent := 0,
          critical_percent := 0 } :=
  ⟨by with_unfolding_all decide,
   get_safety_summary_empty_window
     { safety_history :=
         [{ timestamp := 0, level := SafetyLevel.WARNING, data := {}, warnings := [] }] }
     1 10 (by with_unfolding_all decide)⟩

/-- C9: on empty historical data, system initialisation fails with an error
reported to the caller (the training step rejects the empty sequence set) and
the control state remains `stopped`: the transition to `initialized` happens
only on a successful return. -/
theorem init_system_empty_data (c : CentralControlSystem)
    (h1 : c.lstm_predictor = {}) (h2 : c.system_status = "stopped") :
    init_system c [] = Except.error empty_fit_msg
    ∧ (init_result c []).system_status = "stopped"
    ∧ ∀ (data : List ℚ) (c' : CentralControlSystem),
        init_system c data = Except.ok c' → c'.system_status = "initialized" := by
  have htrain : LSTMPredictor.train ({} : LSTMPredictor) 0
      = Except.error empty_fit_msg := by
    with_unfolding_all rfl
  refine ⟨?_, ?_, ?_⟩
  · simp [init_system, h1, htrain]
  · simp [init_result, init_system, h1, htrain, h2]
  · intro data c' hok
    simp only [init_system] at hok
    cases htr : c.lstm_predictor.train data.length with
    | error e => rw [htr] at hok; simp at hok
    | ok p =>
        rw [htr] at hok
        simp only [Except.ok.injEq] at hok
        rw [← hok]

/-- C9 witness: the theorem applied at the default control system. -/
theorem init_system_empty_data_witness :
    ({} : CentralControlSystem).lstm_predictor = ({} : LSTMPredictor)
    ∧ ({} : CentralControlSystem).system_status = "stopped"
    ∧ init_system {} [] = Except.error empty_fit_msg
    ∧ (init_result ({} : CentralControlSystem) []).system_status = "stopped" :=
  ⟨rfl, rfl, (init_system_empty_data {} rfl rfl).1, (init_system_empty_data {} rfl rfl).2.1⟩

/-- Every record's level is exactly one of the four enum values, so the four
per-level filters partition any record list. -/
theorem level_partition (l : List SafetyRecord) :
    (l.filter (fun r => r.level = SafetyLevel.NORMAL)).length
      + (l.filter (fun r => r.level = SafetyLevel.WARNING)).length
      + (l.filter (fun r => r.level = SafetyLevel.DANGER)).length
      + (l.filter (fun r => r.level = SafetyLevel.CRITICAL)).length = l.length := by
  induction l with
  | nil => rfl
  | cons a tl ih =>
      cases h : a.level <;> simp [List.filter_cons, h] <;> omega

/-- C8: threshold comparisons are strict.  For positive thresholds, a reading
with voltage exactly `threshold × 1.25` (no other metric present) classifies
DANGER — it exceeds the 1.2× bound but not the 1.3× one — firing exactly the
high-voltage rule; and a reading with every metric exactly equal to its
threshold (insulation/ground included) fires no rule at all and classifies
NORMAL. -/
theorem strict_threshold_boundaries (m : SafetyMonitor) (t : ℚ)
    (hv : 0 < m.thresholds.voltage) (hc : 0 ≤ m.thresholds.current)
    (ht : 0 ≤ m.thresholds.temperature) :
    ((check_safety_status m { voltage := some (m.thresholds.voltage * 1.25) } t).1
        = SafetyLevel.DANGER
      ∧ (check_safety_status m { voltage := some (m.thresholds.voltage * 1.25) } t).2.2.1.warnings
        = [Violation.voltageHigh])
    ∧ ((check_safety_status m
          { voltage := some m.thresholds.voltage, current := some m.thresholds.current,
            temperature := some m.thresholds.temperature,
            capacitor_charge := some m.thresholds.capacitor_charge,
            discharge_rate := some m.thresholds.discharge_rate,
            insulation_resistance := some m.thresholds.insulation_resistance,
            ground_resistance := some m.thresholds.ground_resistance } t).1
        = SafetyLevel.NORMAL
      ∧ (check_safety_status m
          { voltage := some m.thresholds.voltage, current := some m.thresholds.current,
            temperature := some m.thresholds.temperature,
            capacitor_charge := some m.thresholds.capacitor_charge,
            discharge_rate := some m.thresholds.discharge_rate,
            insulation_resistance := some m.thresholds.insulation_resistance,
            ground_resistance := some m.thresholds.ground_resistance } t).2.2.1.warnings
        = []) := by
  have h12 : m.thresholds.voltage * 1.25 > m.thresholds.voltage * 1.2 := by nlinarith
  have h13 : ¬ m.thresholds.voltage * 1.25 > m.thresholds.voltage * 1.3 := by nlinarith
  have hb1 : ¬ m.thresholds.voltage > m.thresholds.voltage * 1.2 := by nlinarith
  have hb1' : ¬ m.thresholds.voltage > m.thresholds.voltage := lt_irrefl _
  have hb2 : ¬ m.thresholds.current > m.thresholds.current * 1.2 := by nlinarith
  have hb2' : ¬ m.thresholds.current > m.thresholds.current := lt_irrefl _
  have hb3 : ¬ m.thresholds.temperature > m.thresholds.temperature * 1.1 := by nlinarith
  have hb4 : ¬ m.thresholds.capacitor_charge > m.thresholds.capacitor_charge := lt_irrefl _
  have hb5 : ¬ m.thresholds.insulation_resistance < m.thresholds.insulation_resistance :=
    lt_irrefl _
  have hb6 : ¬ m.thresholds.ground_resistance > m.thresholds.ground_resistance := lt_irrefl _
  constructor
  · constructor
    · simp [check_safety_status, evaluate_rules, h12, h13]
    · simp [check_safety_status, evaluate_rules, h12, h13]
  · constructor
    · simp [check_safety_status, evaluate_rules, hb1, hb1', hb2, hb2', hb3, hb4, hb5, hb6]
    · simp [check_safety_status, evaluate_rules, hb1, hb1', hb2, hb2', hb3, hb4, hb5, hb6]

/-- C8 witness: the theorem applied at the default thresholds (voltage 1000,
so the boundary reading has voltage 1250). -/
theorem strict_threshold_boundaries_witness :
    ((0 : ℚ) < ({} : SafetyMonitor).thresholds.voltage
      ∧ (0 : ℚ) ≤ ({} : SafetyMonitor).thresholds.current
      ∧ (0 : ℚ) ≤ ({} : SafetyMonitor).thresholds.temperature)
    ∧ (check_safety_status {}
        { voltage := some (({} : SafetyMonitor).thresholds.voltage * 1.25) } 0).1
      = SafetyLevel.DANGER
    ∧ (check_safety_status {}
        { voltage := some ({} : SafetyMonitor).thresholds.voltage,
          current := some ({} : SafetyMonitor).thresholds.current,
          temperature := some ({} : SafetyMonitor).thresholds.temperature,
          capacitor_charge := some ({} : SafetyMonitor).thresholds.capacitor_charge,
          discharge_rate := some ({} : SafetyMonitor).thresholds.discharge_rate,
          insulation_resistance := some ({} : SafetyMonitor).thresholds.insulation_resistance,
          ground_resistance := some ({} : SafetyMonitor).thresholds.ground_resistance } 0).1
      = SafetyLevel.NORMAL :=
  ⟨⟨by decide, by decide, by decide⟩,
   (strict_threshold_boundaries {} 0 (by decide) (by decide) (by decide)).1.1,
   (strict_threshold_boundaries {} 0 (by decide) (by decide) (by decide)).2.1⟩

/-- C7: `get_recent_alerts count` returns only non-NORMAL records, exactly
`min count |alerts|` of them, ordered newest-first by timestamp, and they are
the most recent ones: the ledger's remaining alerts all have timestamps no
later than every returned record. -/
theorem get_recent_alerts_spec (m : SafetyMonitor) (count : Nat) :
    (∀ r ∈ get_recent_alerts m count, r.level ≠ SafetyLevel.NORMAL)
    ∧ (get_recent_alerts m count).length = min count (alertsOf m).length
    ∧ List.Pairwise (fun a b => b.timestamp ≤ a.timestamp) (get_recent_alerts m count)
    ∧ ∃ rest : List SafetyRecord,
        (get_recent_alerts m count ++ rest).Perm (alertsOf m)
        ∧ ∀ s ∈ rest, ∀ r ∈ get_recent_alerts m count, s.timestamp ≤ r.timestamp := by
  have hperm : ((alertsOf m).mergeSort
      (fun a b => b.timestamp ≤ a.timestamp)).Perm (alertsOf m) :=
    List.mergeSort_perm _ _
  have hsorted : ((alertsOf m).mergeSort
      (fun a b => b.timestamp ≤ a.timestamp)).Pairwise
        (fun a b => (decide (b.timestamp ≤ a.timestamp)) = true) := by
    apply List.sorted_mergeSort
    · intro a b c hab hbc
      simp only [decide_eq_true_eq] at *
      exact le_trans hbc hab
    · intro a b
      simpa using le_total b.timestamp a.timestamp
  have hsorted' : ((alertsOf m).mergeSort
      (fun a b => b.timestamp ≤ a.timestamp)).Pairwise
        (fun a b => b.timestamp ≤ a.timestamp) :=
    hsorted.imp (fun h => by simpa using h)
  have hout : get_recent_alerts m count
      = ((alertsOf m).mergeSort (fun a b => b.timestamp ≤ a.timestamp)).take count := rfl
  refine ⟨?_, ?_, ?_, ?_⟩
  · intro r hr
    rw [hout] at hr
    have hmem : r ∈ (alertsOf m).mergeSort (fun a b => b.timestamp ≤ a.timestamp) :=
      List.mem_of_mem_take hr
    have : r ∈ alertsOf m := hperm.mem_iff.mp hmem
    have := List.mem_filter.mp this
    simpa using this.2
  · rw [hout, List.length_take, List.length_mergeSort]
  · rw [hout]
    exact List.Pairwise.sublist (List.take_sublist _ _) hsorted'
  · refine ⟨((alertsOf m).mergeSort (fun a b => b.timestamp ≤ a.timestamp)).drop count,
      ?_, ?_⟩
    · rw [hout, List.take_append_drop]
      exact hperm
    · intro s hs r hr
      rw [hout] at hr
      have hpair : (((alertsOf m).mergeSort (fun a b => b.timestamp ≤ a.timestamp)).take count
          ++ ((alertsOf m).mergeSort (fun a b => b.timestamp ≤ a.timestamp)).drop count).Pairwise
            (fun a b => b.timestamp ≤ a.timestamp) := by
        rw [List.take_append_drop]
        exact hsorted'
      exact (List.pairwise_append.mp hpair).2.2 r hr s hs

/-- C7 witness: the theorem applied at a ledger of 5 WARNING and 2 NORMAL
records with `count = 3`: exactly 3 alerts are returned. -/
theorem get_recent_alerts_spec_witness :
    (get_recent_alerts
        { safety_history :=
            [{ timestamp := 1, level := SafetyLevel.WARNING, data := {}, warnings := [] },
             { timestamp := 2, level := SafetyLevel.NORMAL, data := {}, warnings := [] },
             { timestamp := 3, level := SafetyLevel.WARNING, data := {}, warnings := [] },
             { timestamp := 4, level := SafetyLevel.WARNING, data := {}, warnings := [] },
             { timestamp := 5, level := SafetyLevel.NORMAL, data := {}, warnings := [] },
             { timestamp := 6, level := SafetyLevel.WARNING, data := {}, warnings := [] },
             { timestamp := 7, level := SafetyLevel.WARNING, data := {}, warnings := [] }] }
        3).length
      = min 3 (alertsOf
        { safety_history :=
            [{ timestamp := 1, level := SafetyLevel.WARNING, data := {}, warnings := [] },
             { timestamp := 2, level := SafetyLevel.NORMAL, data := {}, warnings := [] },
             { timestamp := 3, level := SafetyLevel.WARNING, data := {}, warnings := [] },
             { timestamp := 4, level := SafetyLevel.WARNING, data := {}, warnings := [] },
             { timestamp := 5, level := SafetyLevel.NORMAL, data := {}, warnings := [] },
             { timestamp := 6, level := SafetyLevel.WARNING, data := {}, warnings := [] },
             { timestamp := 7, level := SafetyLevel.WARNING, data := {}, warnings := [] }] }).length :=
  (get_recent_alerts_spec
    { safety_history :=
        [{ timestamp := 1, level := SafetyLevel.WARNING, data := {}, warnings := [] },
         { timestamp := 2, level := SafetyLevel.NORMAL, data := {}, warnings := [] },
         { timestamp := 3, level := SafetyLevel.WARNING, data := {}, warnings := [] },
         { timestamp := 4, level := SafetyLevel.WARNING, data := {}, warnings := [] },
         { timestamp := 5, level := SafetyLevel.NORMAL, data := {}, warnings := [] },
         { timestamp := 6, level := SafetyLevel.WARNING, data := {}, warnings := [] },
         { timestamp := 7, level := SafetyLevel.WARNING, data := {}, warnings := [] }] }
    3).2.1

/-- The binary64 value of `1 / 3 * 100` in Python: both the division and the
multiplication round, giving `2345624805922133 / 2^46`, i.e. the double
`33.33333333333333`. -/
theorem percent_of_one_third : percent_of 1 3 = mkRat 2345624805922133 70368744177664 := by
  have h1 : ((1 : ℕ) : ℚ) / ((3 : ℕ) : ℚ) = mkRat 1 3 := by
    rw [Rat.mkRat_eq_div]; norm_num
  have h2 : fl64 (mkRat 1 3) = mkRat 6004799503160661 18014398509481984 := by decide
  have h3 : mkRat 6004799503160661 18014398509481984 * 100
      = mkRat 600479950316066100 18014398509481984 := by
    rw [Rat.mkRat_eq_div, Rat.mkRat_eq_div]; norm_num
  have h4 : fl64 (mkRat 600479950316066100 18014398509481984)
      = mkRat 2345624805922133 70368744177664 := by decide
  rw [percent_of, h1, h2, h3, h4]

/-- `0 / total * 100` is exactly `0.0` in double arithmetic. -/
theorem percent_of_zero (total : Nat) : percent_of 0 total = 0 := by
  have h0 : ((0 : ℕ) : ℚ) / ((total : ℕ) : ℚ) = 0 := by norm_num
  have hz : fl64 0 = 0 := by decide
  rw [percent_of, h0, hz, zero_mul, hz]

/-- The summary of a 3-record in-window ledger (one NORMAL, one WARNING, one
DANGER): counts `(1, 1, 1, 0)` of total `3`, each nonzero percentage the
double `1/3*100`. -/
theorem summary_m3_eq :
    get_safety_summary
      { safety_history :=
          [{ timestamp := 1, level := SafetyLevel.NORMAL, data := {}, warnings := [] },
           { timestamp := 2, level := SafetyLevel.WARNING, data := {}, warnings := [] },
           { timestamp := 3, level := SafetyLevel.DANGER, data := {}, warnings := [] }] }
      24 4
    = { total := 3, normal := 1, warning := 1, danger := 1, critical := 0,
        normal_percent := percent_of 1 3, warning_percent := percent_of 1 3,
        danger_percent := percent_of 1 3, critical_percent := percent_of 0 3 } := by
  have t1 : ((1 : ℚ) > 4 - 24) := by norm_num
  have t2 : ((2 : ℚ) > 4 - 24) := by norm_num
  have t3 : ((3 : ℚ) > 4 - 24) := by norm_num
  simp [get_safety_summary, t1, t2, t3]

/-- C10 (counterexample): the four percentages do NOT always sum to exactly
100.0.  On the reachable in-window ledger with counts `(1, 1, 1, 0)` of
total 3, each stored percentage is the double `1/3*100` and the four stored
values sum to `7036874417766399 / 2^46` — the quantity Python prints as
`99.99999999999999` — which is not 100. -/
theorem get_safety_summary_percent_float_cex :
    (get_safety_summary
      { safety_history :=
          [{ timestamp := 1, level := SafetyLevel.NORMAL, data := {}, warnings := [] },
           { timestamp := 2, level := SafetyLevel.WARNING, data := {}, warnings := [] },
           { timestamp := 3, level := SafetyLevel.DANGER, data := {}, warnings := [] }] }
      24 4).total = 3
    ∧ (get_safety_summary
      { safety_history :=
          [{ timestamp := 1, level := SafetyLevel.NORMAL, data := {}, warnings := [] },
           { timestamp := 2, level := SafetyLevel.WARNING, data := {}, warnings := [] },
           { timestamp := 3, level := SafetyLevel.DANGER, data := {}, warnings := [] }] }
      24 4).normal_percent
      + (get_safety_summary
      { safety_history :=
          [{ timestamp := 1, level := SafetyLevel.NORMAL, data := {}, warnings := [] },
           { timestamp := 2, level := SafetyLevel.WARNING, data := {}, warnings := [] },
           { timestamp := 3, level := SafetyLevel.DANGER, data := {}, warnings := [] }] }
      24 4).warning_percent
      + (get_safety_summary
      { safety_history :=
          [{ timestamp := 1, level := SafetyLevel.NORMAL, data := {}, warnings := [] },
           { timestamp := 2, level := SafetyLevel.WARNING, data := {}, warnings := [] },
           { timestamp := 3, level := SafetyLevel.DANGER, data := {}, warnings := [] }] }
      24 4).danger_percent
      + (get_safety_summary
      { safety_history :=
          [{ timestamp := 1, level := SafetyLevel.NORMAL, data := {}, warnings := [] },
           { timestamp := 2, level := SafetyLevel.WARNING, data := {}, warnings := [] },
           { timestamp := 3, level := SafetyLevel.DANGER, data := {}, warnings := [] }] }
      24 4).critical_percent
      = mkRat 7036874417766399 70368744177664
    ∧ (mkRat 7036874417766399 70368744177664 : ℚ) ≠ 100 := by
  refine ⟨?_, ?_, ?_⟩
  · rw [summary_m3_eq]
  · rw [summary_m3_eq]
    simp only
    rw [percent_of_one_third, percent_of_zero]
    rw [Rat.mkRat_eq_div, Rat.mkRat_eq_div]
    norm_num
  · rw [Rat.mkRat_eq_div]; norm_num

/-- C10 (amended): the four per-level counts always sum to `total`, and in
exact arithmetic the four ratios `count/total*100` sum to exactly 100 when
`total > 0`; but the stored percentages, computed in the source's IEEE-754
double arithmetic, need not sum to exactly 100.0: at a reachable 3-record
window with counts `(1, 1, 1, 0)` they sum to `7036874417766399 / 2^46`
(`99.99999999999999`), not 100. -/
theorem get_safety_summary_partition_amended :
    (∀ (m : SafetyMonitor) (hours now : ℚ),
        (get_safety_summary m hours now).normal + (get_safety_summary m hours now).warning
          + (get_safety_summary m hours now).danger + (get_safety_summary m hours now).critical
          = (get_safety_summary m hours now).total)
    ∧ (∀ (m : SafetyMonitor) (hours now : ℚ),
        0 < (get_safety_summary m hours now).total →
        ((get_safety_summary m hours now).normal : ℚ)
            / ((get_safety_summary m hours now).total : ℚ) * 100
          + ((get_safety_summary m hours now).warning : ℚ)
            / ((get_safety_summary m hours now).total : ℚ) * 100
          + ((get_safety_summary m hours now).danger : ℚ)
            / ((get_safety_summary m hours now).total : ℚ) * 100
          + ((get_safety_summary m hours now).critical : ℚ)
            / ((get_safety_summary m hours now).total : ℚ) * 100
          = 100)
    ∧ ((get_safety_summary
          { safety_history :=
              [{ timestamp := 1, level := SafetyLevel.NORMAL, data := {}, warnings := [] },
               { timestamp := 2, level := SafetyLevel.WARNING, data := {}, warnings := [] },
               { timestamp := 3, level := SafetyLevel.DANGER, data := {}, warnings := [] }] }
          24 4).normal_percent
        + (get_safety_summary
          { safety_history :=
              [{ timestamp := 1, level := SafetyLevel.NORMAL, data := {}, warnings := [] },
               { timestamp := 2, level := SafetyLevel.WARNING, data := {}, warnings := [] },
               { timestamp := 3, level := SafetyLevel.DANGER, data := {}, warnings := [] }] }
          24 4).warning_percent
        + (get_safety_summary
          { safety_history :=
              [{ timestamp := 1, level := SafetyLevel.NORMAL, data := {}, warnings := [] },
               { timestamp := 2, level := SafetyLevel.WARNING, data := {}, warnings := [] },
               { timestamp := 3, level := SafetyLevel.DANGER, data := {}, warnings := [] }] }
          24 4).danger_percent
        + (get_safety_summary
          { safety_history :=
              [{ timestamp := 1, level := SafetyLevel.NORMAL, data := {}, warnings := [] },
               { timestamp := 2, level := SafetyLevel.WARNING, data := {}, warnings := [] },
               { timestamp := 3, level := SafetyLevel.DANGER, data := {}, warnings := [] }] }
          24 4).critical_percent
        ≠ 100) := by
  have hcounts : ∀ (m : SafetyMonitor) (hours now : ℚ),
      (get_safety_summary m hours now).normal + (get_safety_summary m hours now).warning
        + (get_safety_summary m hours now).danger + (get_safety_summary m hours now).critical
        = (get_safety_summary m hours now).total := by
    intro m hours now
    simp only [get_safety_summary]
    split
    · rfl
    · exact level_partition _
  refine ⟨hcounts, ?_, ?_⟩
  · intro m hours now ht
    have h := hcounts m hours now
    have htQ : ((get_safety_summary m hours now).total : ℚ) ≠ 0 :=
      Nat.cast_ne_zero.mpr (Nat.pos_iff_ne_zero.mp ht)
    have hcast : ((get_safety_summary m hours now).normal : ℚ)
        + ((get_safety_summary m hours now).warning : ℚ)
        + ((get_safety_summary m hours now).danger : ℚ)
        + ((get_safety_summary m hours now).critical : ℚ)
        = ((get_safety_summary m hours now).total : ℚ) := by
      exact_mod_cast h
    field_simp
    linarith [hcast]
  · rw [summary_m3_eq]
    simp only
    rw [percent_of_one_third, percent_of_zero]
    rw [Rat.mkRat_eq_div]
    norm_num

/-- C10 witness: the amended statement applied at the concrete 3-record
ledger (counts sum to the total 3; the exact-arithmetic ratios sum to 100
there). -/
theorem get_safety_summary_partition_amended_witness :
    (let s := get_safety_summary
        { safety_history :=
            [{ timestamp := 1, level := SafetyLevel.NORMAL, data := {}, warnings := [] },
             { timestamp := 2, level := SafetyLevel.WARNING, data := {}, warnings := [] },
             { timestamp := 3, level := SafetyLevel.DANGER, data := {}, warnings := [] }] }
        24 4
     s.normal + s.warning + s.danger + s.critical = s.total
     ∧ 0 < s.total
     ∧ (s.normal : ℚ) / (s.total : ℚ) * 100 + (s.warning : ℚ) / (s.total : ℚ) * 100
        + (s.danger : ℚ) / (s.total : ℚ) * 100 + (s.critical : ℚ) / (s.total : ℚ) * 100
        = 100) :=
  ⟨get_safety_summary_partition_amended.1
      { safety_history :=
          [{ timestamp := 1, level := SafetyLevel.NORMAL, data := {}, warnings := [] },
           { timestamp := 2, level := SafetyLevel.WARNING, data := {}, warnings := [] },
           { timestamp := 3, level := SafetyLevel.DANGER, data := {}, warnings := [] }] }
      24 4,
   by with_unfolding_all decide,
   get_safety_summary_partition_amended.2.1
      { safety_history :=
          [{ timestamp := 1, level := SafetyLevel.NORMAL, data := {}, warnings := [] },
           { timestamp := 2, level := SafetyLevel.WARNING, data := {}, warnings := [] },
           { timestamp := 3, level := SafetyLevel.DANGER, data := {}, warnings := [] }] }
      24 4 (by with_unfolding_all decide)⟩
